import Mathlib

/-!
Shallow embedding of the auth-service token lifecycle core: the JWT codec
(login-service/src/utils/jwt.js, mirrored by shared/utils/jwt.js), the
revocation store (logout-service/src/models/BlacklistedToken.js), the
logout controller (logout-service/src/controllers/logoutController.js),
the authentication middleware (authenticateToken / optionalAuth in the
logout-service middleware file), the User model (userSchema appended in
logout-service/server.js) and the simple logout service's validateToken
middleware (simple-logout-service/server.js).

Conventions: wall-clock seconds are used for JWT `exp` claims and
milliseconds for stored `Date` values, matching the `decoded.exp * 1000`
conversions in the source.  A serialized JWT is modelled as a `Token`
record carrying its decoded payload, the identifier of the secret it was
signed with, and flags for structural well-formedness and for the
issuer/audience claims demanded by the verifiers.
-/

namespace AuthService

/-- The `type` discriminator claim embedded in issued tokens
(`'access'` / `'refresh'`); `other` covers any further value. -/
inductive TokType where
  | access
  | refresh
  | other
deriving DecidableEq, Repr

/-- Decoded JWT payload as used by the services: `userId`, the `type`
discriminator and the `exp` claim in seconds. -/
structure Payload where
  userId : Nat
  type : TokType
  exp : Nat
deriving DecidableEq, Repr

/-- A serialized token string.  `secret` identifies the signing secret,
`wellFormed` is whether the string parses as a JWT at all, `claimsOk` is
whether the issuer/audience claims match the options that
`verifyAccessToken` / `verifyRefreshToken` pass to `jwt.verify`. -/
structure Token where
  payload : Payload
  secret : Nat
  wellFormed : Bool
  claimsOk : Bool
deriving DecidableEq, Repr

/-- Error classes thrown by the `jsonwebtoken` library that the source's
verifiers can encounter for the tokens representable here. -/
inductive JwtError where
  | tokenExpired
  | jsonWebToken
deriving DecidableEq, Repr

/-- `jwt.verify(token, secret, {issuer, audience})`: signature first, then
the `exp` claim (expired when `now >= exp`), then issuer/audience. -/
def jwtVerify (t : Token) (secret now : Nat) : Except JwtError Payload :=
  if !t.wellFormed then .error .jsonWebToken
  else if t.secret ≠ secret then .error .jsonWebToken
  else if t.payload.exp ≤ now then .error .tokenExpired
  else if !t.claimsOk then .error .jsonWebToken
  else .ok t.payload

/-- `jwt.verify(token, secret)` without issuer/audience options, as called
by the simple logout service's `validateToken`. -/
def jwtVerifyNoOpts (t : Token) (secret now : Nat) : Except JwtError Payload :=
  if !t.wellFormed then .error .jsonWebToken
  else if t.secret ≠ secret then .error .jsonWebToken
  else if t.payload.exp ≤ now then .error .tokenExpired
  else .ok t.payload

/-- `verifyAccessToken` from the jwt utils: re-throws the library errors
as `Error` values with fixed messages. -/
def verifyAccessToken (t : Token) (secret now : Nat) : Except String Payload :=
  match jwtVerify t secret now with
  | .ok p => .ok p
  | .error .tokenExpired => .error ("Access token expired")
  | .error .jsonWebToken => .error ("Invalid access token")

/-- `verifyRefreshToken` from the jwt utils. -/
def verifyRefreshToken (t : Token) (secret now : Nat) : Except String Payload :=
  match jwtVerify t secret now with
  | .ok p => .ok p
  | .error .tokenExpired => .error ("Refresh token expired")
  | .error .jsonWebToken => .error ("Invalid refresh token")

/-- Whether the character list `sub` is a leading segment of `l`. -/
def leadSeg : List Char → List Char → Bool
  | [], _ => true
  | _ :: _, [] => false
  | a :: as, b :: bs => a == b && leadSeg as bs

/-- Whether `sub` occurs contiguously inside `l` (JavaScript
`String.prototype.includes` on the underlying characters). -/
def listHasSeg : List Char → List Char → Bool
  | l, sub =>
    match l with
    | [] => sub.isEmpty
    | _ :: rest => leadSeg sub l || listHasSeg rest sub

/-- JavaScript `s.includes(sub)`: case-sensitive substring test. -/
def jsIncludes (s sub : String) : Bool :=
  listHasSeg s.data sub.data

/-! ## Revocation store (BlacklistedToken model) -/

/-- A stored `BlacklistedToken` document.  `expiresAt` and `blacklistedAt`
are millisecond timestamps. -/
structure Entry where
  token : Token
  tokenType : TokType
  userId : Nat
  expiresAt : Nat
  blacklistedAt : Nat
  reason : String
  userAgent : Option String
  ipAddress : Option String
deriving DecidableEq, Repr

/-- The revocation store: the collection of blacklist documents, kept by a
unique index on `token`. -/
abbrev Store := List Entry

/-- `BlacklistedToken.findOne({token})`. -/
def findOne (store : Store) (t : Token) : Option Entry :=
  store.find? (fun e => decide (e.token = t))

/-- `BlacklistedToken.isBlacklisted(token)`: `!!(await findOne({token}))`. -/
def isBlacklisted (store : Store) (t : Token) : Bool :=
  (findOne store t).isSome

/-- `BlacklistedToken.create(doc)`: inserts the document; the unique index
on `token` makes a duplicate insert fail with error code 11000. -/
def create (store : Store) (e : Entry) : Except Unit Store :=
  if (findOne store e.token).isSome then .error () else .ok (store ++ [e])

/-- Input of `blacklistToken`, with the source's destructuring defaults. -/
structure TokenData where
  token : Token
  tokenType : TokType
  userId : Nat
  expiresAt : Nat
  reason : String := "logout"
  userAgent : Option String := none
  ipAddress : Option String := none
deriving DecidableEq, Repr

/-- The document that `create` builds from `blacklistToken`'s data;
`blacklistedAt` defaults to the current time (milliseconds). -/
def mkEntry (d : TokenData) (nowMs : Nat) : Entry :=
  { token := d.token, tokenType := d.tokenType, userId := d.userId,
    expiresAt := d.expiresAt, blacklistedAt := nowMs, reason := d.reason,
    userAgent := d.userAgent, ipAddress := d.ipAddress }

/-- `BlacklistedToken.blacklistToken(tokenData)`: try to create; on the
duplicate-key error (11000) return the already-stored document instead. -/
def blacklistToken (store : Store) (d : TokenData) (nowMs : Nat) : Store × Entry :=
  match create store (mkEntry d nowMs) with
  | .ok s => (s, mkEntry d nowMs)
  | .error _ => (store, (findOne store d.token).getD (mkEntry d nowMs))

/-- `BlacklistedToken.cleanupExpired()` / the `deleteMany` in the
`cleanup-tokens` endpoint: delete every document with `expiresAt <= now`
and report `deletedCount`. -/
def cleanupExpired (store : Store) (nowMs : Nat) : Store × Nat :=
  (store.filter (fun e => decide (nowMs < e.expiresAt)),
   store.countP (fun e => decide (e.expiresAt ≤ nowMs)))

/-- Response of the `POST /cleanup-tokens` controller. -/
structure CleanupResult where
  status : Nat
  removedTokens : Nat
  store : Store
deriving DecidableEq, Repr

/-- `cleanupTokens` controller: runs the reap at the current time and
returns 200 with the removed count. -/
def cleanupTokens (store : Store) (nowMs : Nat) : CleanupResult :=
  let r := cleanupExpired store nowMs
  { status := 200, removedTokens := r.2, store := r.1 }

/-! ## User model (userSchema, appended in logout-service/server.js) -/

/-- A stored user document: `isActive` (default true) and the
`refreshTokens` array.  Each stored subdocument `{token, createdAt}` is
represented by its `token`; the `createdAt`/TTL bookkeeping plays no role
in the operations modelled here. -/
structure User where
  id : Nat
  email : String
  isActive : Bool
  refreshTokens : List Token
deriving DecidableEq, Repr

/-- `User.findById(id)`. -/
def findById (users : List User) (uid : Nat) : Option User :=
  users.find? (fun u => decide (u.id = uid))

/-- `userSchema.methods.removeRefreshToken(token)`: keeps only the stored
refresh tokens whose `token` differs from the given one, then saves the
document. -/
def removeRefreshToken (u : User) (t : Token) : User :=
  { u with refreshTokens := u.refreshTokens.filter (fun x => decide (¬ x = t)) }

/-- Write an updated user record back into the collection. -/
def updateUser (users : List User) (u : User) : List User :=
  users.map (fun x => if x.id = u.id then u else x)

/-- The fields of `req.user` that the middleware attaches. -/
structure UserView where
  id : Nat
  email : String
  isActive : Bool
deriving DecidableEq, Repr

/-- Projection of a user record to the attached `req.user` object. -/
def User.view (u : User) : UserView :=
  { id := u.id, email := u.email, isActive := u.isActive }

/-! ## Verification Gate (authenticateToken / optionalAuth middleware) -/

/-- Outcome of the `authenticateToken` middleware: an error response, or
control passed to the handler with an authenticated principal. -/
inductive AuthOutcome where
  | reject (status : Nat) (error : String)
  | grant (principal : UserView)
deriving DecidableEq, Repr

/-- Request environment seen by the middleware: the extracted bearer
token, the revocation store, the user collection, `JWT_SECRET` and the
current time in seconds. -/
structure GateEnv where
  header : Option Token
  store : Store
  users : List User
  secret : Nat
  now : Nat
deriving Repr

/-- `authenticateToken`, instrumented: the second component lists the
tokens for which the revocation store was consulted
(`BlacklistedToken.isBlacklisted`).  The `catch` block dispatches on the
thrown message with JavaScript's case-sensitive `includes`. -/
def authenticateTokenRun (env : GateEnv) : AuthOutcome × List Token :=
  match env.header with
  | none => (.reject 401 ("MISSING_TOKEN"), [])
  | some token =>
    match verifyAccessToken token env.secret env.now with
    | .error msg =>
      if jsIncludes msg ("expired") then (.reject 401 ("TOKEN_EXPIRED"), [])
      else if jsIncludes msg ("invalid") || jsIncludes msg ("malformed") then
        (.reject 401 ("INVALID_TOKEN"), [])
      else (.reject 500 ("AUTH_FAILED"), [])
    | .ok decoded =>
      if decoded.type ≠ .access then (.reject 401 ("INVALID_TOKEN_TYPE"), [])
      else if isBlacklisted env.store token then (.reject 401 ("TOKEN_BLACKLISTED"), [token])
      else
        match findById env.users decoded.userId with
        | none => (.reject 401 ("USER_NOT_FOUND"), [token])
        | some user =>
          if !user.isActive then (.reject 401 ("ACCOUNT_DEACTIVATED"), [token])
          else (.grant user.view, [token])

/-- The `authenticateToken` middleware's outcome. -/
def authenticateToken (env : GateEnv) : AuthOutcome :=
  (authenticateTokenRun env).1

/-- Outcome of the `optionalAuth` middleware: either control passes to the
next handler with the attached `req.user`, or a response is produced. -/
inductive OptionalAuthResult where
  | next (user : Option UserView)
  | respond (status : Nat) (error : String)
deriving DecidableEq, Repr

/-- `optionalAuth`: attaches `req.user` when the bearer token verifies as
an access token of an existing active user, otherwise continues with
`req.user = null`; its `catch` also continues with `req.user = null`. -/
def optionalAuth (env : GateEnv) : OptionalAuthResult :=
  match env.header with
  | none => .next none
  | some token =>
    match verifyAccessToken token env.secret env.now with
    | .error _ => .next none
    | .ok decoded =>
      if decoded.type ≠ .access then .next none
      else
        match findById env.users decoded.userId with
        | some user => if user.isActive then .next (some user.view) else .next none
        | none => .next none

/-- The `req.user` value that `optionalAuth` hands to the next handler. -/
def optionalAuthUser (env : GateEnv) : Option UserView :=
  match optionalAuth env with
  | .next u => u
  | .respond _ _ => none

/-! ## Simple logout service's validateToken middleware -/

/-- Outcome of the simple service's `validateToken`. -/
inductive SimpleOutcome where
  | reject (status : Nat) (msg : String)
  | grant (decoded : Payload)
deriving DecidableEq, Repr

/-- `validateToken` from simple-logout-service/server.js, instrumented
like `authenticateTokenRun`: here the blacklist `findOne` runs BEFORE
`jwt.verify`, so the store is consulted for every non-missing token. -/
def validateTokenRun (env : GateEnv) : SimpleOutcome × List Token :=
  match env.header with
  | none => (.reject 401 ("No token provided"), [])
  | some token =>
    if (findOne env.store token).isSome then
      (.reject 401 ("Token has been invalidated"), [token])
    else
      match jwtVerifyNoOpts token env.secret env.now with
      | .error _ => (.reject 401 ("Invalid token"), [token])
      | .ok decoded => (.grant decoded, [token])

/-! ## Logout controller -/

/-- The blacklist document built by the controllers from a decoded token:
`expiresAt = decoded.exp * 1000`, schema defaults for the rest,
`blacklistedAt` from the wall clock. -/
def decodedEntry (t : Token) (ty : TokType) (p : Payload) (nowSec : Nat) : Entry :=
  { token := t, tokenType := ty, userId := p.userId, expiresAt := p.exp * 1000,
    blacklistedAt := nowSec * 1000, reason := "logout",
    userAgent := none, ipAddress := none }

/-- Request environment of the logout controller. -/
structure LogoutEnv where
  header : Option Token
  cookie : Option Token
  reqUser : Option Nat
  store : Store
  users : List User
  accessSecret : Nat
  refreshSecret : Nat
  now : Nat
deriving Repr

/-- Observable outcome of a logout request: status, body code, whether
the refresh-token cookie was cleared, and the resulting state. -/
structure LogoutResult where
  status : Nat
  body : String
  cookieCleared : Bool
  store : Store
  users : List User
deriving DecidableEq, Repr

/-- The `logout` controller.  Step 1 blacklists the access token when one
is present; a verification failure or a duplicate-key error from `create`
escapes to the outer catch (500, cookie still cleared).  Step 2, guarded
by `refreshToken && req.user`, removes the cookie token from the user's
list and then, in an inner try, verifies and blacklists it — both inner
failures are swallowed.  Every exit clears the cookie. -/
def logout (env : LogoutEnv) : LogoutResult :=
  let step1 : Except Unit Store :=
    match env.header with
    | none => .ok env.store
    | some t =>
      match verifyAccessToken t env.accessSecret env.now with
      | .error _ => .error ()
      | .ok d =>
        match create env.store (decodedEntry t .access d env.now) with
        | .error _ => .error ()
        | .ok s => .ok s
  match step1 with
  | .error _ =>
    { status := 500, body := "SERVER_ERROR", cookieCleared := true,
      store := env.store, users := env.users }
  | .ok s1 =>
    match env.cookie, env.reqUser with
    | some rt, some uid =>
      let users2 :=
        match findById env.users uid with
        | some u => updateUser env.users (removeRefreshToken u rt)
        | none => env.users
      let s2 :=
        match verifyRefreshToken rt env.refreshSecret env.now with
        | .error _ => s1
        | .ok d =>
          match create s1 (decodedEntry rt .refresh d env.now) with
          | .error _ => s1
          | .ok s => s
      { status := 200, body := "Logout successful", cookieCleared := true,
        store := s2, users := users2 }
    | _, _ =>
      { status := 200, body := "Logout successful", cookieCleared := true,
        store := s1, users := env.users }

/-- The `POST /logout` route: `optionalAuth` computes `req.user`, then the
`logout` controller runs. -/
def postLogout (env : LogoutEnv) : LogoutResult :=
  let u := optionalAuthUser
    { header := env.header, store := env.store, users := env.users,
      secret := env.accessSecret, now := env.now }
  logout { env with reqUser := u.map (fun v => v.id) }

/-! ## invalidateToken controller -/

/-- Request environment of `POST /invalidate-token`. -/
structure InvEnv where
  token : Option Token
  tokenType : Option String
  store : Store
  users : List User
  accessSecret : Nat
  refreshSecret : Nat
  now : Nat
deriving Repr

/-- Observable outcome of an invalidate-token request. -/
structure InvResult where
  status : Nat
  error : Option String
  store : Store
  users : List User
deriving DecidableEq, Repr

/-- The verification step of `invalidateToken`: access tokens through
`verifyAccessToken`, refresh tokens through `verifyRefreshToken`. -/
def invVerify (env : InvEnv) (t : Token) (ty : String) : Except String Payload :=
  if ty = "access" then verifyAccessToken t env.accessSecret env.now
  else verifyRefreshToken t env.refreshSecret env.now

/-- The `invalidateToken` controller: parameter checks, verification
(400 INVALID_TOKEN on failure), duplicate check (409), then insert; for a
refresh token the user's stored list is also pruned. -/
def invalidateToken (env : InvEnv) : InvResult :=
  match env.token, env.tokenType with
  | none, _ =>
    { status := 400, error := some "MISSING_PARAMETERS", store := env.store, users := env.users }
  | some _, none =>
    { status := 400, error := some "MISSING_PARAMETERS", store := env.store, users := env.users }
  | some t, some ty =>
    if ¬ (ty = "access" ∨ ty = "refresh") then
      { status := 400, error := some "INVALID_TOKEN_TYPE", store := env.store, users := env.users }
    else
      match invVerify env t ty with
      | .error _ =>
        { status := 400, error := some "INVALID_TOKEN", store := env.store, users := env.users }
      | .ok decoded =>
        if (findOne env.store t).isSome then
          { status := 409, error := some "TOKEN_ALREADY_BLACKLISTED",
            store := env.store, users := env.users }
        else
          match create env.store
              (decodedEntry t (if ty = "access" then .access else .refresh) decoded env.now) with
          | .error _ =>
            { status := 500, error := some "SERVER_ERROR", store := env.store, users := env.users }
          | .ok s =>
            let users2 :=
              if ty = "refresh" then
                match findById env.users decoded.userId with
                | some u => updateUser env.users (removeRefreshToken u t)
                | none => env.users
              else env.users
            { status := 200, error := none, store := s, users := users2 }

/-! ## Concrete fixtures -/

/-- The configured access secret (`JWT_SECRET`). -/
def secA : Nat := 1

/-- The configured refresh secret (`JWT_REFRESH_SECRET`). -/
def secR : Nat := 2

/-- A sample wall-clock time in seconds. -/
def tNow : Nat := 1700000000

/-- A well-formed, unexpired access token for user 7. -/
def accessTok : Token := ⟨⟨7, .access, tNow + 3600⟩, secA, true, true⟩

/-- A well-formed access token for user 7 that is already past expiry. -/
def expiredTok : Token := ⟨⟨7, .access, tNow - 10⟩, secA, true, true⟩

/-- An unverifiable garbage token (not structurally a JWT). -/
def garbageTok : Token := ⟨⟨0, .other, 0⟩, 0, false, false⟩

/-- A well-formed, unexpired refresh token for user 7. -/
def refreshTok : Token := ⟨⟨7, .refresh, tNow + 604800⟩, secR, true, true⟩

/-- A token with `type = refresh` but signed under the access secret. -/
def wrongTypeTok : Token := ⟨⟨7, .refresh, tNow + 3600⟩, secA, true, true⟩

/-- An active user owning `refreshTok`. -/
def alice : User := ⟨7, "alice@example.com", true, [refreshTok]⟩

/-- A blacklist document for `accessTok`. -/
def accessTokEntry : Entry := decodedEntry accessTok .access accessTok.payload tNow

/-! ## Helper lemmas about the store -/

theorem findOne_eq_none_iff (store : Store) (t : Token) :
    findOne store t = none ↔ ∀ e ∈ store, e.token ≠ t := by
  simp [findOne, List.find?_eq_none]

theorem findOne_append_of_none (s₁ s₂ : Store) (t : Token)
    (h : findOne s₁ t = none) : findOne (s₁ ++ s₂) t = findOne s₂ t := by
  induction s₁ with
  | nil => simp [findOne]
  | cons e rest ih =>
    rw [findOne_eq_none_iff] at h
    have he : e.token ≠ t := h e (by simp)
    have hrest : findOne rest t = none := by
      rw [findOne_eq_none_iff]
      intro x hx
      exact h x (by simp [hx])
    have := ih hrest
    simpa [findOne, List.find?_cons, he] using this

theorem findOne_singleton_self (e : Entry) : findOne [e] e.token = some e := by
  simp [findOne, List.find?_cons]

theorem countP_token_eq_zero (store : Store) (t : Token)
    (h : findOne store t = none) :
    store.countP (fun e => decide (e.token = t)) = 0 := by
  rw [findOne_eq_none_iff] at h
  rw [List.countP_eq_zero]
  intro e he
  simpa using h e he

theorem findById_id (users : List User) (uid : Nat) (u : User)
    (h : findById users uid = some u) : u.id = uid := by
  have := List.find?_some h
  simpa using this

theorem findById_self (users : List User) (uid : Nat) (u : User)
    (h : findById users uid = some u) : findById users u.id = some u := by
  rw [findById_id users uid u h]
  exact h

/-! ## Claim theorems -/

/-- C1: a token that passes signature verification, is of access type and
is not yet past its expiry, but has a blacklist entry, is rejected by
`authenticateToken` with 401 TOKEN_BLACKLISTED and yields no authenticated
principal; an unrevoked token past its expiry is instead rejected with the
distinct error 401 TOKEN_EXPIRED. -/
theorem authenticateToken_revocation_precedence :
    (∀ (env : GateEnv) (t : Token) (p : Payload),
      env.header = some t →
      jwtVerify t env.secret env.now = .ok p →
      p.type = .access →
      isBlacklisted env.store t = true →
      authenticateToken env = .reject 401 ("TOKEN_BLACKLISTED") ∧
      ∀ v, authenticateToken env ≠ .grant v) ∧
    (∀ (env : GateEnv) (t : Token),
      env.header = some t →
      t.wellFormed = true →
      t.secret = env.secret →
      t.payload.exp ≤ env.now →
      isBlacklisted env.store t = false →
      authenticateToken env = .reject 401 ("TOKEN_EXPIRED")) ∧
    ("TOKEN_BLACKLISTED" : String) ≠ "TOKEN_EXPIRED" := by
  refine ⟨?_, ?_, by decide⟩
  · intro env t p hh hv ht hb
    have hva : verifyAccessToken t env.secret env.now = .ok p := by
      unfold verifyAccessToken
      rw [hv]
    have hmain : authenticateToken env = .reject 401 ("TOKEN_BLACKLISTED") := by
      simp [authenticateToken, authenticateTokenRun, hh, hva, ht, hb]
    refine ⟨hmain, ?_⟩
    intro v hcon
    rw [hmain] at hcon
    exact AuthOutcome.noConfusion hcon
  · intro env t hh hwf hsec hexp hb
    have hva : verifyAccessToken t env.secret env.now = .error ("Access token expired") := by
      simp [verifyAccessToken, jwtVerify, hwf, hsec, hexp]
    have hinc : jsIncludes ("Access token expired") ("expired") = true := by decide
    simp [authenticateToken, authenticateTokenRun, hh, hva, hinc]

/-- Request presenting the valid-but-blacklisted `accessTok`. -/
def envRevoked : GateEnv :=
  { header := some accessTok, store := [accessTokEntry], users := [alice],
    secret := secA, now := tNow }

/-- Request presenting the unrevoked-but-expired `expiredTok`. -/
def envExpired : GateEnv :=
  { header := some expiredTok, store := [], users := [alice],
    secret := secA, now := tNow }

/-- C1 witness: concrete blacklisted-valid-token and expired-token
requests produce the two distinct rejections. -/
theorem authenticateToken_revocation_precedence_witness :
    authenticateToken envRevoked = .reject 401 ("TOKEN_BLACKLISTED") ∧
    authenticateToken envExpired = .reject 401 ("TOKEN_EXPIRED") :=
  ⟨(authenticateToken_revocation_precedence.1 envRevoked
      accessTok accessTok.payload rfl rfl rfl (by decide)).1,
   authenticateToken_revocation_precedence.2.1 envExpired
      expiredTok rfl rfl rfl (by decide) (by decide)⟩

/-- C2: inserting the same token twice through `blacklistToken` leaves the
store of the first insert unchanged and returns the entry stored by the
first insert (even at a later wall-clock time `n₂`); on a store without
that token the double insert stores exactly one entry for it, the one
built by the first call. -/
theorem blacklistToken_idempotent :
    ∀ (store : Store) (d : TokenData) (n₁ n₂ : Nat),
      blacklistToken (blacklistToken store d n₁).1 d n₂ = blacklistToken store d n₁ ∧
      (findOne store d.token = none →
        (blacklistToken store d n₁).1.countP (fun e => decide (e.token = d.token)) = 1 ∧
        (blacklistToken store d n₁).2 = mkEntry d n₁) := by
  intro store d n₁ n₂
  have htok : ∀ n, (mkEntry d n).token = d.token := fun _ => rfl
  cases hfind : findOne store d.token with
  | none =>
    have hc₁ : create store (mkEntry d n₁) = .ok (store ++ [mkEntry d n₁]) := by
      simp [create, htok, hfind]
    have hb₁ : blacklistToken store d n₁ = (store ++ [mkEntry d n₁], mkEntry d n₁) := by
      simp [blacklistToken, hc₁]
    have hfind₂ : findOne (store ++ [mkEntry d n₁]) d.token = some (mkEntry d n₁) := by
      rw [findOne_append_of_none store [mkEntry d n₁] d.token hfind]
      simpa [htok] using findOne_singleton_self (mkEntry d n₁)
    have hc₂ : create (store ++ [mkEntry d n₁]) (mkEntry d n₂) = .error () := by
      simp [create, htok, hfind₂]
    constructor
    · rw [hb₁]
      simp [blacklistToken, hc₂, hfind₂]
    · intro _
      rw [hb₁]
      refine ⟨?_, rfl⟩
      rw [List.countP_append, countP_token_eq_zero store d.token hfind]
      simp [List.countP_cons, htok]
  | some e =>
    have hc : ∀ n, create store (mkEntry d n) = .error () := by
      intro n
      simp [create, htok, hfind]
    have hb : ∀ n, blacklistToken store d n = (store, e) := by
      intro n
      simp [blacklistToken, hc n, hfind]
    constructor
    · rw [hb n₁]
      exact hb n₂
    · intro hcon
      simp [hfind] at hcon

/-- Sample `blacklistToken` input for `refreshTok`. -/
def refreshTokData : TokenData :=
  { token := refreshTok, tokenType := .refresh, userId := 7,
    expiresAt := (tNow + 604800) * 1000 }

/-- C2 witness: double insert of `refreshTokData` into the empty store. -/
theorem blacklistToken_idempotent_witness :
    blacklistToken (blacklistToken [] refreshTokData 5).1 refreshTokData 9 =
      blacklistToken [] refreshTokData 5 ∧
    (blacklistToken [] refreshTokData 5).1.countP
      (fun e => decide (e.token = refreshTokData.token)) = 1 ∧
    (blacklistToken [] refreshTokData 5).2 = mkEntry refreshTokData 5 :=
  ⟨(blacklistToken_idempotent [] refreshTokData 5 9).1,
   (blacklistToken_idempotent [] refreshTokData 5 9).2 rfl⟩

theorem countP_expired_add_length_kept (store : Store) (nowMs : Nat) :
    store.countP (fun e => decide (e.expiresAt ≤ nowMs)) +
      (store.filter (fun e => decide (nowMs < e.expiresAt))).length = store.length := by
  induction store with
  | nil => simp
  | cons e rest ih =>
    by_cases hq : e.expiresAt ≤ nowMs
    · have h1 : decide (e.expiresAt ≤ nowMs) = true := by
        simp only [decide_eq_true_eq]
        omega
      have h2 : decide (nowMs < e.expiresAt) = false := by
        simp only [decide_eq_false_iff_not]
        omega
      simp [List.countP_cons, List.filter_cons, h1, h2]
      omega
    · have h1 : decide (e.expiresAt ≤ nowMs) = false := by
        simp only [decide_eq_false_iff_not]
        omega
      have h2 : decide (nowMs < e.expiresAt) = true := by
        simp only [decide_eq_true_eq]
        omega
      simp [List.countP_cons, List.filter_cons, h1, h2]
      omega

/-- A sample reap time in milliseconds. -/
def reapNowMs : Nat := tNow * 1000

/-- A stored entry that expired one second before `reapNowMs`. -/
def staleEntry : Entry :=
  { token := expiredTok, tokenType := .access, userId := 7,
    expiresAt := reapNowMs - 1000, blacklistedAt := reapNowMs - 5000,
    reason := "logout", userAgent := none, ipAddress := none }

/-- A stored entry expiring one hour after `reapNowMs`. -/
def liveEntry : Entry :=
  { token := accessTok, tokenType := .access, userId := 7,
    expiresAt := reapNowMs + 3600000, blacklistedAt := reapNowMs - 5000,
    reason := "logout", userAgent := none, ipAddress := none }

/-- C3: `cleanupExpired` keeps exactly the entries with `expiresAt > now`
(unchanged, as a sublist) and reports as removed the difference in size;
on the store holding one entry expired 1 second ago and one expiring in
1 hour it removes exactly one and reports `removedTokens = 1`. -/
theorem cleanupExpired_reaps_exactly_expired :
    (∀ (store : Store) (nowMs : Nat),
      (∀ e, e ∈ (cleanupExpired store nowMs).1 ↔ (e ∈ store ∧ nowMs < e.expiresAt)) ∧
      (cleanupExpired store nowMs).1.Sublist store ∧
      (cleanupExpired store nowMs).2 + (cleanupExpired store nowMs).1.length = store.length) ∧
    cleanupExpired [staleEntry, liveEntry] reapNowMs = ([liveEntry], 1) ∧
    cleanupTokens [staleEntry, liveEntry] reapNowMs =
      { status := 200, removedTokens := 1, store := [liveEntry] } := by
  refine ⟨?_, by decide, by decide⟩
  intro store nowMs
  refine ⟨?_, ?_, ?_⟩
  · intro e
    simp [cleanupExpired, List.mem_filter]
  · exact List.filter_sublist store
  · exact countP_expired_add_length_kept store nowMs

/-- C3 witness: the counting identity applied to the two-entry store. -/
theorem cleanupExpired_reaps_exactly_expired_witness :
    (cleanupExpired [staleEntry, liveEntry] reapNowMs).2 +
      (cleanupExpired [staleEntry, liveEntry] reapNowMs).1.length = 2 :=
  (cleanupExpired_reaps_exactly_expired.1 [staleEntry, liveEntry] reapNowMs).2.2

/-- `POST /logout` request carrying an unverifiable garbage bearer token
and no refresh cookie. -/
def logoutEnvGarbage : LogoutEnv :=
  { header := some garbageTok, cookie := none, reqUser := none, store := [],
    users := [alice], accessSecret := secA, refreshSecret := secR, now := tNow }

/-- `POST /logout` request with no bearer token and no refresh cookie. -/
def logoutEnvMissing : LogoutEnv :=
  { header := none, cookie := none, reqUser := none, store := [],
    users := [alice], accessSecret := secA, refreshSecret := secR, now := tNow }

/-- C4: with a missing token the logout route does return 200 with the
cookie cleared, but with a garbage (unverifiable) bearer token and no
refresh cookie `verifyAccessToken` throws, the outer catch answers
500 SERVER_ERROR — not the claimed 200 — although the clear-cookie header
is still issued on this error path. -/
theorem postLogout_garbage_token_gives_500 :
    postLogout logoutEnvGarbage =
      { status := 500, body := "SERVER_ERROR", cookieCleared := true,
        store := [], users := [alice] } ∧
    postLogout logoutEnvMissing =
      { status := 200, body := "Logout successful", cookieCleared := true,
        store := [], users := [alice] } :=
  ⟨rfl, rfl⟩

/-- `POST /logout` request carrying the well-formed but expired access
token and no refresh cookie. -/
def logoutEnvExpired : LogoutEnv :=
  { header := some expiredTok, cookie := none, reqUser := none, store := [],
    users := [alice], accessSecret := secA, refreshSecret := secR, now := tNow }

/-- C5: a well-formed but already-expired access token presented to
logout is NOT blacklisted: `verifyAccessToken` throws before the insert,
the store is left unchanged and the response is 500, contradicting the
expired-tokens-are-still-revoked contract. -/
theorem postLogout_expired_token_not_blacklisted :
    verifyAccessToken expiredTok secA tNow = .error ("Access token expired") ∧
    postLogout logoutEnvExpired =
      { status := 500, body := "SERVER_ERROR", cookieCleared := true,
        store := [], users := [alice] } :=
  ⟨rfl, rfl⟩

/-- Simple logout service request presenting the garbage token over a
store that also holds no entry for it. -/
def simpleEnvGarbage : GateEnv :=
  { header := some garbageTok, store := [], users := [], secret := secA, now := tNow }

/-- C6 counterexample: the simple logout service's `validateToken`
consults the revocation store (`findOne`) for a token that fails
signature verification — the blacklist lookup runs before `jwt.verify`,
so the gate does perform a revocation lookup for an invalid token. -/
theorem validateToken_consults_store_on_invalid_token :
    (validateTokenRun simpleEnvGarbage).2 = [garbageTok] ∧
    jwtVerifyNoOpts garbageTok simpleEnvGarbage.secret simpleEnvGarbage.now =
      .error .jsonWebToken ∧
    (validateTokenRun simpleEnvGarbage).1 = .reject 401 ("Invalid token") :=
  ⟨rfl, rfl, rfl⟩

/-- C6 amended: `authenticateToken` never consults the revocation store
for a token that fails verification (nor for one of the wrong kind, nor
when the token is missing) — its lookups happen only after
`verifyAccessToken` succeeded on an access-type token; `validateToken` of
the simple logout service instead consults the store for every presented
token, before any signature check. -/
theorem authenticateToken_verifies_before_revocation_lookup :
    (∀ (env : GateEnv) (t : Token) (msg : String),
      env.header = some t →
      verifyAccessToken t env.secret env.now = .error msg →
      (authenticateTokenRun env).2 = []) ∧
    (∀ (env : GateEnv) (t : Token) (p : Payload),
      env.header = some t →
      verifyAccessToken t env.secret env.now = .ok p →
      p.type ≠ .access →
      (authenticateTokenRun env).2 = []) ∧
    (∀ env : GateEnv, env.header = none → (authenticateTokenRun env).2 = []) ∧
    (∀ (env : GateEnv) (t : Token),
      env.header = some t → (validateTokenRun env).2 = [t]) := by
  refine ⟨?_, ?_, ?_, ?_⟩
  · intro env t msg hh hv
    simp only [authenticateTokenRun, hh, hv]
    split
    · rfl
    · split
      · rfl
      · rfl
  · intro env t p hh hv ht
    simp [authenticateTokenRun, hh, hv, ht]
  · intro env hh
    simp [authenticateTokenRun, hh]
  · intro env t hh
    simp only [validateTokenRun, hh]
    split
    · rfl
    · split
      · rfl
      · rfl

/-- Simple logout service request presenting the valid `accessTok`. -/
def simpleEnvValid : GateEnv :=
  { header := some accessTok, store := [], users := [], secret := secA, now := tNow }

/-- C6 witness: at the garbage-token request the instrumented
`authenticateToken` performs no store lookup, while `validateToken`
performs one even for a valid token. -/
theorem authenticateToken_verifies_before_revocation_lookup_witness :
    (authenticateTokenRun
        { header := some garbageTok, store := [], users := [alice],
          secret := secA, now := tNow }).2 = [] ∧
    (validateTokenRun simpleEnvValid).2 = [accessTok] :=
  ⟨authenticateToken_verifies_before_revocation_lookup.1
      { header := some garbageTok, store := [], users := [alice],
        secret := secA, now := tNow }
      garbageTok ("Invalid access token") rfl rfl,
   authenticateToken_verifies_before_revocation_lookup.2.2.2 simpleEnvValid accessTok rfl⟩

/-- An access-type token signed under secret 5, for the scenario where
the access and refresh secrets are both 5. -/
def accessLikeTok : Token := ⟨⟨9, .access, tNow + 3600⟩, 5, true, true⟩

/-- C7 counterexample: verifying an Access-signed token as a refresh
token never yields a WrongKind error.  With equal secrets (both 5)
`verifyRefreshToken` SUCCEEDS, returning the access payload; with
distinct secrets it fails with the Malformed-class error
"Invalid refresh token". -/
theorem verifyRefreshToken_accepts_access_token_on_equal_secrets :
    verifyRefreshToken accessLikeTok 5 tNow = .ok accessLikeTok.payload ∧
    accessLikeTok.payload.type = .access ∧
    verifyRefreshToken accessLikeTok 6 tNow = .error ("Invalid refresh token") :=
  ⟨rfl, rfl, rfl⟩

/-- C7 amended: the codec has no WrongKind error and `verifyRefreshToken`
never inspects the kind discriminator: a well-formed, unexpired
Access-type token passes `verifyRefreshToken` whenever its signing secret
equals the refresh secret, and otherwise fails with the Malformed-class
"Invalid refresh token"; the kind check lives only at call sites, where
`authenticateToken` rejects a verified non-access token with
401 INVALID_TOKEN_TYPE. -/
theorem verifyRefreshToken_ignores_kind :
    (∀ (t : Token) (rs now : Nat),
      t.payload.type = .access →
      t.wellFormed = true →
      t.claimsOk = true →
      now < t.payload.exp →
      verifyRefreshToken t rs now =
        if t.secret = rs then .ok t.payload else .error ("Invalid refresh token")) ∧
    (∀ (env : GateEnv) (t : Token) (p : Payload),
      env.header = some t →
      verifyAccessToken t env.secret env.now = .ok p →
      p.type ≠ .access →
      authenticateToken env = .reject 401 ("INVALID_TOKEN_TYPE")) := by
  constructor
  · intro t rs now _ hwf hclaims hexp
    by_cases hs : t.secret = rs
    · simp [verifyRefreshToken, jwtVerify, hwf, hclaims, hs, Nat.not_le.mpr hexp]
    · simp [verifyRefreshToken, jwtVerify, hwf, hs]
  · intro env t p hh hv ht
    simp [authenticateToken, authenticateTokenRun, hh, hv, ht]

/-- Request presenting `wrongTypeTok`: a refresh-type token signed under
the access secret, which verifies but fails the kind check at the gate. -/
def envWrongType : GateEnv :=
  { header := some wrongTypeTok, store := [], users := [alice],
    secret := secA, now := tNow }

/-- C7 witness: the amended statement applied at `accessLikeTok` with
both secrets equal to 5, and at the wrong-kind request. -/
theorem verifyRefreshToken_ignores_kind_witness :
    verifyRefreshToken accessLikeTok 5 tNow =
      (if accessLikeTok.secret = 5 then .ok accessLikeTok.payload
       else .error ("Invalid refresh token")) ∧
    authenticateToken envWrongType = .reject 401 ("INVALID_TOKEN_TYPE") :=
  ⟨verifyRefreshToken_ignores_kind.1 accessLikeTok 5 tNow rfl rfl rfl (by decide),
   verifyRefreshToken_ignores_kind.2 envWrongType wrongTypeTok wrongTypeTok.payload
      rfl rfl (by decide)⟩

/-- C8: with both parameters present and a valid `tokenType`,
`invalidateToken` rejects an unverifiable token with 400 INVALID_TOKEN
inserting nothing, rejects an already-blacklisted token with 409 inserting
nothing, and otherwise inserts the entry and returns 200 — so a second
call with the same token against the resulting state returns 409. -/
theorem invalidateToken_verify_then_conflict_check :
    ∀ (env : InvEnv) (t : Token) (ty : String),
      env.token = some t →
      env.tokenType = some ty →
      ty = "access" ∨ ty = "refresh" →
      ((∀ msg, invVerify env t ty = .error msg →
          invalidateToken env =
            { status := 400, error := some "INVALID_TOKEN",
              store := env.store, users := env.users }) ∧
       (∀ p, invVerify env t ty = .ok p → (findOne env.store t).isSome = true →
          invalidateToken env =
            { status := 409, error := some "TOKEN_ALREADY_BLACKLISTED",
              store := env.store, users := env.users }) ∧
       (∀ p, invVerify env t ty = .ok p → findOne env.store t = none →
          (invalidateToken env).status = 200 ∧
          (invalidateToken env).store =
            env.store ++
              [decodedEntry t (if ty = "access" then .access else .refresh) p env.now] ∧
          (invalidateToken { env with
                              store := (invalidateToken env).store,
                              users := (invalidateToken env).users }).status = 409)) := by
  intro env t ty hh ht hty
  have htok : ∀ (ty2 : TokType) (p : Payload), (decodedEntry t ty2 p env.now).token = t :=
    fun _ _ => rfl
  refine ⟨?_, ?_, ?_⟩
  · intro msg hve
    simp [invalidateToken, hh, ht, hty, hve]
  · intro p hve hbl
    simp [invalidateToken, hh, ht, hty, hve, hbl]
  · intro p hve hnone
    have hcr : ∀ ty2 : TokType,
        create env.store (decodedEntry t ty2 p env.now) =
          .ok (env.store ++ [decodedEntry t ty2 p env.now]) := by
      intro ty2
      simp [create, htok, hnone]
    have hstatus : (invalidateToken env).status = 200 := by
      simp [invalidateToken, hh, ht, hty, hve, hnone, hcr]
    have hstore : (invalidateToken env).store =
        env.store ++
          [decodedEntry t (if ty = "access" then .access else .refresh) p env.now] := by
      simp [invalidateToken, hh, ht, hty, hve, hnone, hcr]
    refine ⟨hstatus, hstore, ?_⟩
    set R := invalidateToken env with hR
    have hve2 : invVerify { token := some t, tokenType := some ty, store := R.store,
                            users := R.users, accessSecret := env.accessSecret,
                            refreshSecret := env.refreshSecret, now := env.now } t ty =
        .ok p := hve
    have h1 := findOne_singleton_self
      (decodedEntry t (if ty = "access" then .access else .refresh) p env.now)
    rw [htok] at h1
    have hfind2 : (findOne R.store t).isSome = true := by
      rw [hstore, findOne_append_of_none _ _ _ hnone, h1]
      rfl
    simp [invalidateToken, hh, ht, hty, hve2, hfind2]

/-- `POST /invalidate-token` request for the valid `accessTok` over the
empty store. -/
def invEnvFresh : InvEnv :=
  { token := some accessTok, tokenType := some "access", store := [],
    users := [alice], accessSecret := secA, refreshSecret := secR, now := tNow }

/-- C8 witness: the fresh invalidate call returns 200 and stores the
entry; the repeated call against the new state returns 409. -/
theorem invalidateToken_verify_then_conflict_check_witness :
    (invalidateToken invEnvFresh).status = 200 ∧
    (invalidateToken invEnvFresh).store =
      [decodedEntry accessTok .access accessTok.payload tNow] ∧
    (invalidateToken { invEnvFresh with
                        store := (invalidateToken invEnvFresh).store,
                        users := (invalidateToken invEnvFresh).users }).status = 409 := by
  have h := (invalidateToken_verify_then_conflict_check invEnvFresh accessTok
    ("access") rfl rfl (Or.inl rfl)).2.2 accessTok.payload rfl rfl
  simpa using h

/-- `POST /logout` request with no bearer token but a valid refresh
cookie (a client with a stale session cookie only). -/
def logoutEnvCookieOnly : LogoutEnv :=
  { header := none, cookie := some refreshTok, reqUser := none, store := [],
    users := [alice], accessSecret := secA, refreshSecret := secR, now := tNow }

/-- C9 counterexample: a logout request whose refresh cookie is present
and verifies successfully, but which carries no bearer token, leaves the
store without any entry for the refresh token and the owning user's list
untouched — the whole sub-step is guarded by `refreshToken && req.user`,
and `req.user` is null here. -/
theorem postLogout_cookie_only_skips_refresh_revocation :
    verifyRefreshToken refreshTok secR tNow = .ok refreshTok.payload ∧
    refreshTok ∈ alice.refreshTokens ∧
    postLogout logoutEnvCookieOnly =
      { status := 200, body := "Logout successful", cookieCleared := true,
        store := [], users := [alice] } :=
  ⟨rfl, by decide, rfl⟩

/-- C9 amended: when the logout request resolves a user (`req.user` set
via a valid access token of an active user), that access token is not yet
blacklisted, and a refresh cookie is present, the refresh token is
removed from the owning user's stored list; if it verifies and is itself
fresh, a revocation entry for it is inserted as well, and if it fails
verification the insert is skipped without failing the logout (200 with
only the access entry inserted).  Without a resolved `req.user` the whole
sub-step is skipped (counterexample). -/
theorem logout_refresh_revocation_requires_user :
    ∀ (env : LogoutEnv) (ta tr : Token) (pa : Payload) (u : User),
      env.header = some ta →
      jwtVerify ta env.accessSecret env.now = .ok pa →
      pa.type = .access →
      findById env.users pa.userId = some u →
      u.isActive = true →
      findOne env.store ta = none →
      env.cookie = some tr →
      ((∀ pr, verifyRefreshToken tr env.refreshSecret env.now = .ok pr →
          findOne env.store tr = none → tr ≠ ta →
          postLogout env =
            { status := 200, body := "Logout successful", cookieCleared := true,
              store := env.store ++ [decodedEntry ta .access pa env.now,
                                     decodedEntry tr .refresh pr env.now],
              users := updateUser env.users (removeRefreshToken u tr) }) ∧
       (∀ msg, verifyRefreshToken tr env.refreshSecret env.now = .error msg →
          postLogout env =
            { status := 200, body := "Logout successful", cookieCleared := true,
              store := env.store ++ [decodedEntry ta .access pa env.now],
              users := updateUser env.users (removeRefreshToken u tr) })) := by
  intro env ta tr pa u hh hva htype hfindu hactive hfresh hcookie
  have hvacc : verifyAccessToken ta env.accessSecret env.now = .ok pa := by
    unfold verifyAccessToken
    rw [hva]
  have huser : optionalAuthUser
      { header := some ta, store := env.store, users := env.users,
        secret := env.accessSecret, now := env.now } = some u.view := by
    simp [optionalAuthUser, optionalAuth, hvacc, htype, hfindu, hactive]
  have htokA : (decodedEntry ta .access pa env.now).token = ta := rfl
  have hcrA : create env.store (decodedEntry ta .access pa env.now) =
      .ok (env.store ++ [decodedEntry ta .access pa env.now]) := by
    simp [create, htokA, hfresh]
  have hfindu2 : findById env.users u.view.id = some u := by
    simpa [User.view] using findById_self env.users pa.userId u hfindu
  constructor
  · intro pr hvr hfreshR hne
    have htokR : (decodedEntry tr .refresh pr env.now).token = tr := rfl
    have hne2 : ¬ (ta = tr) := fun h => hne h.symm
    have hfindR : findOne (env.store ++ [decodedEntry ta .access pa env.now]) tr = none := by
      rw [findOne_append_of_none _ _ _ hfreshR]
      simp [findOne, List.find?_cons, htokA, hne2]
    have hcrR : create (env.store ++ [decodedEntry ta .access pa env.now])
        (decodedEntry tr .refresh pr env.now) =
        .ok ((env.store ++ [decodedEntry ta .access pa env.now]) ++
          [decodedEntry tr .refresh pr env.now]) := by
      simp [create, htokR, hfindR]
    simp [postLogout, huser, logout, hh, hvacc, hcrA, hcookie, hfindu2, hvr, hcrR]
  · intro msg hvr
    simp [postLogout, huser, logout, hh, hvacc, hcrA, hcookie, hfindu2, hvr]

/-- `POST /logout` request with the valid access token and the matching
refresh cookie of `alice`. -/
def logoutEnvFull : LogoutEnv :=
  { header := some accessTok, cookie := some refreshTok, reqUser := none, store := [],
    users := [alice], accessSecret := secA, refreshSecret := secR, now := tNow }

/-- C9 witness: the amended statement applied at the full request. -/
theorem logout_refresh_revocation_requires_user_witness :
    postLogout logoutEnvFull =
      { status := 200, body := "Logout successful", cookieCleared := true,
        store := [decodedEntry accessTok .access accessTok.payload tNow,
                  decodedEntry refreshTok .refresh refreshTok.payload tNow],
        users := updateUser [alice] (removeRefreshToken alice refreshTok) } := by
  have h := (logout_refresh_revocation_requires_user logoutEnvFull accessTok refreshTok
    accessTok.payload alice rfl rfl rfl rfl rfl rfl rfl).1 refreshTok.payload rfl rfl
    (by decide)
  simpa using h

/-- C10: `optionalAuth` always passes control to the next handler (it
never produces an error response), and it attaches a user exactly when
the bearer token verifies as an access-type token of an existing active
user — in every other case `req.user` is null. -/
theorem optionalAuth_total_and_characterized :
    ∀ env : GateEnv,
      (∃ u, optionalAuth env = .next u) ∧
      (∀ v, optionalAuth env = .next (some v) ↔
        ∃ t p usr, env.header = some t ∧
          verifyAccessToken t env.secret env.now = .ok p ∧
          p.type = .access ∧
          findById env.users p.userId = some usr ∧
          usr.isActive = true ∧
          v = usr.view) := by
  intro env
  cases hh : env.header with
  | none =>
    refine ⟨⟨none, by simp [optionalAuth, hh]⟩, ?_⟩
    intro v
    constructor
    · intro hcon
      simp [optionalAuth, hh] at hcon
    · rintro ⟨t, p, usr, ht, _⟩
      exact Option.noConfusion ht
  | some t =>
    cases hv : verifyAccessToken t env.secret env.now with
    | error msg =>
      refine ⟨⟨none, by simp [optionalAuth, hh, hv]⟩, ?_⟩
      intro v
      constructor
      · intro hcon
        simp [optionalAuth, hh, hv] at hcon
      · rintro ⟨t2, p, usr, ht, hvok, _⟩
        cases ht
        rw [hv] at hvok
        exact Except.noConfusion hvok
    | ok p =>
      by_cases htype : p.type = .access
      · cases hfu : findById env.users p.userId with
        | none =>
          refine ⟨⟨none, by simp [optionalAuth, hh, hv, htype, hfu]⟩, ?_⟩
          intro v
          constructor
          · intro hcon
            simp [optionalAuth, hh, hv, htype, hfu] at hcon
          · rintro ⟨t2, p2, usr, ht, hvok, _, hfu2, _⟩
            cases ht
            rw [hv] at hvok
            cases hvok
            rw [hfu] at hfu2
            exact Option.noConfusion hfu2
        | some usr =>
          cases hact : usr.isActive with
          | false =>
            refine ⟨⟨none, by simp [optionalAuth, hh, hv, htype, hfu, hact]⟩, ?_⟩
            intro v
            constructor
            · intro hcon
              simp [optionalAuth, hh, hv, htype, hfu, hact] at hcon
            · rintro ⟨t2, p2, usr2, ht, hvok, _, hfu2, hact2, _⟩
              cases ht
              rw [hv] at hvok
              cases hvok
              rw [hfu] at hfu2
              cases hfu2
              rw [hact] at hact2
              exact Bool.noConfusion hact2
          | true =>
            refine ⟨⟨some usr.view, by simp [optionalAuth, hh, hv, htype, hfu, hact]⟩, ?_⟩
            intro v
            constructor
            · intro hnext
              refine ⟨t, p, usr, rfl, hv, htype, hfu, hact, ?_⟩
              have : optionalAuth env = .next (some usr.view) := by
                simp [optionalAuth, hh, hv, htype, hfu, hact]
              rw [this] at hnext
              have := OptionalAuthResult.next.inj hnext
              exact (Option.some.inj this).symm
            · rintro ⟨t2, p2, usr2, ht, hvok, _, hfu2, _, hview⟩
              cases ht
              rw [hv] at hvok
              cases hvok
              rw [hfu] at hfu2
              cases hfu2
              rw [hview]
              simp [optionalAuth, hh, hv, htype, hfu, hact]
      · refine ⟨⟨none, by simp [optionalAuth, hh, hv, htype]⟩, ?_⟩
        intro v
        constructor
        · intro hcon
          simp [optionalAuth, hh, hv, htype] at hcon
        · rintro ⟨t2, p2, usr, ht, hvok, htype2, _⟩
          cases ht
          rw [hv] at hvok
          cases hvok
          exact absurd htype2 htype

/-- C10 witness: at the full valid request `optionalAuth` attaches
`alice`. -/
theorem optionalAuth_total_and_characterized_witness :
    optionalAuth { header := some accessTok, store := [], users := [alice],
                   secret := secA, now := tNow } = .next (some alice.view) :=
  ((optionalAuth_total_and_characterized
      { header := some accessTok, store := [], users := [alice],
        secret := secA, now := tNow }).2 alice.view).mpr
    ⟨accessTok, accessTok.payload, alice, rfl, rfl, rfl, rfl, rfl, rfl⟩

end AuthService
